import Mathlib

/-!
Shallow embedding of the recording/transcription lifecycle controller of
the Transcribe-Anywhere repository (`main.py`, `src/audio_recorder.py`,
`src/gui.py`).

Modelling conventions:
* Timestamps (`time.time()`) are modelled as natural numbers counting
  milliseconds, so that the fractional second `3.5 s` of the spec's timer
  scenario is representable; Python's `int(now - start)` (truncation of a
  non-negative difference) becomes `(now - t0) / 1000` on `Nat`.
* The GUI queue (`self.gui.gui_queue.put(...)`) is modelled as a list of
  `GuiMsg` values appended in program order.
* The filesystem is a list of paths of files that exist; `wave.open(..)`
  followed by `writeframes` adds the path, `os.path.exists` is list
  membership.
* External effects (device open success, a chunk read, the transcription
  result, clipboard success) are oracle parameters of the functions that
  consume them.
* `threading.Thread(target=..., daemon=True).start()` calls are recorded
  as `Spawn` values returned alongside the new state, so that theorems can
  count how many timer / capture-loop / transcription threads a scenario
  spawns.
-/

/-- `AppState` enum of `main.py` lines 21-24. -/
inductive AppState where
  | IDLE
  | RECORDING
  | PROCESSING
deriving DecidableEq, Repr

/-- Messages put on `self.gui.gui_queue` by the helpers of
`TranscriptionApp` (`main.py` lines 48-61). -/
inductive GuiMsg where
  | update_status (text color : String)
  | update_timer (t : String)
  | update_transcript (text : String)
  | set_button_states (start_enabled stop_enabled : Bool)
  | show_status_message (text : String) (duration : Nat)
deriving DecidableEq, Repr

/-- One `threading.Thread(...).start()` call made by the controller. -/
inductive Spawn where
  | timer
  | capture
  | transcription (path : String)
deriving DecidableEq, Repr

/-- `STATUS_IDLE` of `src/gui.py` line 18. -/
def STATUS_IDLE : String := "Status: Idle"

/-- `STATUS_RECORDING` of `src/gui.py` line 19 (the source file holds the
mojibake bytes `‚óè` before the word). -/
def STATUS_RECORDING : String := "‚óè Recording..."

/-- `STATUS_TRANSCRIBING` of `src/gui.py` line 20. -/
def STATUS_TRANSCRIBING : String := "Transcribing..."

/-- `STATUS_ERROR` of `src/gui.py` line 21. -/
def STATUS_ERROR : String := "Error!"

/-- State of `AudioRecorder` (`src/audio_recorder.py` lines 21-37):
`frames` is the list of captured chunks (chunk payloads abstracted to
`Nat`), `stream` records whether an input stream is open, `is_recording`
and `filename` are the fields of the same names. -/
structure AudioRecorder where
  frames : List Nat
  is_recording : Bool
  stream : Bool
  filename : Option String
deriving DecidableEq, Repr

/-- `AudioRecorder.__init__` (`src/audio_recorder.py` lines 33-37). -/
def AudioRecorder.init : AudioRecorder :=
  { frames := [], is_recording := false, stream := false, filename := none }

/-- `AudioRecorder.start_recording` (`src/audio_recorder.py` lines 43-67).
`openOk` is the outcome of `self.p.open(...)`; `newName` is the timestamped
name `_generate_filename` would produce. Returns the new recorder state and
the boolean result of the Python method. -/
def AudioRecorder.start_recording (r : AudioRecorder) (openOk : Bool)
    (newName : String) : AudioRecorder × Bool :=
  if r.is_recording then (r, false)
  else if openOk then
    ({ frames := [], is_recording := true, stream := true,
       filename := some newName }, true)
  else (r, false)

/-- `AudioRecorder._save_recording` (`src/audio_recorder.py` lines 87-98):
writes the wav file only when at least one frame was captured; returns the
updated filesystem. (With no frames the method returns without touching the
disk.) -/
def AudioRecorder.save_recording (r : AudioRecorder) (fs : List String) :
    List String :=
  if r.frames = [] then fs
  else
    match r.filename with
    | some f => f :: fs
    | none => fs

/-- `AudioRecorder.stop_recording` (`src/audio_recorder.py` lines 69-85):
returns `none` when not recording, otherwise stops the stream, saves via
`_save_recording`, and returns `self.filename`. Result: new recorder,
new filesystem, and the Python return value. -/
def AudioRecorder.stop_recording (r : AudioRecorder) (fs : List String) :
    AudioRecorder × List String × Option String :=
  if r.is_recording then
    let r2 : AudioRecorder :=
      { r with is_recording := false, stream := false }
    (r2, r2.save_recording fs, r2.filename)
  else (r, fs, none)

/-- `AudioRecorder.record_audio_chunk` (`src/audio_recorder.py` lines
100-109). `read = some data` models a successful `stream.read`; `read =
none` models the `IOError` branch, which calls `self.stop_recording()`
(discarding its return value, possibly saving the file). -/
def AudioRecorder.record_audio_chunk (r : AudioRecorder)
    (fs : List String) (read : Option Nat) : AudioRecorder × List String :=
  if r.is_recording && r.stream then
    match read with
    | some data => ({ r with frames := r.frames ++ [data] }, fs)
    | none =>
      let s := r.stop_recording fs
      (s.1, s.2.1)
  else (r, fs)

/-- The mutable state of `TranscriptionApp` (`main.py` lines 35-38)
together with its `AudioRecorder`. -/
structure App where
  current_state : AppState
  recording_start_time : Option Nat
  recording_filepath : Option String
  audio_capture_active : Bool
  recorder : AudioRecorder
deriving DecidableEq, Repr

/-- `TranscriptionApp.__init__` (`main.py` lines 27-42): state IDLE, no
start time, no filepath, capture inactive, fresh recorder. -/
def initialApp : App :=
  { current_state := AppState.IDLE
    recording_start_time := none
    recording_filepath := none
    audio_capture_active := false
    recorder := AudioRecorder.init }

/-- Two-digit decimal rendering used by `%H`, `%M`, `%S` of
`time.strftime`. -/
def two_digit (n : Nat) : String :=
  if n < 10 then "0" ++ toString n else toString n

/-- `time.strftime('%H:%M:%S', time.gmtime(e))` for `e` elapsed seconds
(`main.py` line 72): `gmtime` wraps the hour field at 24. -/
def timer_str (e : Nat) : String :=
  two_digit (e / 3600 % 24) ++ ":" ++ two_digit (e / 60 % 60) ++ ":"
    ++ two_digit (e % 60)

/-- One iteration of the body of `_timer_thread_func` (`main.py` lines
70-73): while the state is RECORDING and a start time is set, emit a
timer update computed from `now - recording_start_time` (milliseconds,
truncated to whole seconds); otherwise the loop emits nothing. -/
def App.timer_tick (a : App) (now : Nat) : Option GuiMsg :=
  match a.recording_start_time with
  | some t0 =>
    if a.current_state = AppState.RECORDING then
      some (GuiMsg.update_timer (timer_str ((now - t0) / 1000)))
    else none
  | none => none

/-- First half of `start_recording` (`main.py` lines 101-104), executed
after the IDLE guard and before the device-open attempt: set the state to
PROCESSING and clear the transcript display. -/
def App.start_recording_begin (a : App) : App × List GuiMsg :=
  ({ a with current_state := AppState.PROCESSING },
   [GuiMsg.update_transcript ""])

/-- Second half of `start_recording` (`main.py` lines 106-123): attempt
`recorder.start_recording()`; on success move to RECORDING, set the start
time, publish status/buttons/notice, spawn the timer thread, enable the
capture flag and spawn the capture loop; on failure revert to IDLE and
publish the error status/notice/buttons. -/
def App.start_recording_open (a : App) (openOk : Bool) (newName : String)
    (now : Nat) : App × List GuiMsg × List Spawn :=
  let s := a.recorder.start_recording openOk newName
  if s.2 then
    ({ a with current_state := AppState.RECORDING
              recording_start_time := some now
              audio_capture_active := true
              recorder := s.1 },
     [GuiMsg.update_status STATUS_RECORDING "red",
      GuiMsg.set_button_states false true,
      GuiMsg.show_status_message "Recording started..." 3000],
     [Spawn.timer, Spawn.capture])
  else
    ({ a with current_state := AppState.IDLE, recorder := s.1 },
     [GuiMsg.update_status (STATUS_ERROR ++ ": Mic?") "orange",
      GuiMsg.show_status_message
        "Failed to start recording. Check microphone." 5000,
      GuiMsg.set_button_states true false],
     [])

/-- `TranscriptionApp.start_recording` (`main.py` lines 96-123). Returns
the new app state, the GUI messages enqueued, and the threads spawned. -/
def App.start_recording (a : App) (openOk : Bool) (newName : String)
    (now : Nat) : App × List GuiMsg × List Spawn :=
  if a.current_state = AppState.IDLE then
    let b := a.start_recording_begin
    let c := b.1.start_recording_open openOk newName now
    (c.1, b.2 ++ c.2.1, c.2.2)
  else (a, [], [])

/-- `TranscriptionApp.stop_recording_and_process` (`main.py` lines
125-152). Returns the new app, the filesystem after the recorder saved
(or did not save) the file, the GUI messages, and the threads spawned
(a transcription thread when the saved file exists). -/
def App.stop_recording_and_process (a : App) (fs : List String) :
    App × List String × List GuiMsg × List Spawn :=
  if a.current_state = AppState.RECORDING then
    let a1 : App :=
      { a with current_state := AppState.PROCESSING
               audio_capture_active := false }
    let s := a1.recorder.stop_recording fs
    let a2 : App := { a1 with recorder := s.1, recording_filepath := s.2.2 }
    let evs : List GuiMsg :=
      [GuiMsg.update_status STATUS_TRANSCRIBING "yellow",
       GuiMsg.set_button_states false false,
       GuiMsg.update_timer "00:00:00",
       GuiMsg.show_status_message "Recording stopped. Transcribing..." 3000]
    match s.2.2 with
    | some p =>
      if p ∈ s.2.1 then (a2, s.2.1, evs, [Spawn.transcription p])
      else
        ({ a2 with current_state := AppState.IDLE }, s.2.1,
         evs ++
           [GuiMsg.update_status (STATUS_ERROR ++ ": Save Fail") "red",
            GuiMsg.show_status_message
              "Error saving/finding recording file." 5000,
            GuiMsg.set_button_states true false],
         [])
    | none =>
      ({ a2 with current_state := AppState.IDLE }, s.2.1,
       evs ++
         [GuiMsg.update_status (STATUS_ERROR ++ ": Save Fail") "red",
          GuiMsg.show_status_message
            "Error saving/finding recording file." 5000,
          GuiMsg.set_button_states true false],
       [])
  else (a, fs, [], [])

/-- Python truthiness of the `error_msg` string option: `if error_msg:`
is true exactly when the value is neither `None` nor the empty string. -/
def truthy : Option String → Bool
  | none => false
  | some s => !(s = "")

/-- `TranscriptionApp._transcribe_and_update` (`main.py` lines 155-188),
after `transcriber.transcribe_audio` has produced
`result = (transcript, error_msg)`; `clipOk` is the result of
`copy_to_clipboard`. Publishes the branch's GUI messages, then
unconditionally sets the state to IDLE and re-enables the start button. -/
def App.transcribe_and_update (a : App)
    (result : Option String × Option String) (clipOk : Bool) :
    App × List GuiMsg :=
  let evs : List GuiMsg :=
    if truthy result.2 then
      [GuiMsg.update_transcript
         ("Transcription Error: " ++ result.2.getD ""),
       GuiMsg.update_status (STATUS_ERROR ++ ": API") "red",
       GuiMsg.show_status_message
         ("Transcription Error: " ++ (result.2.getD "").take 50 ++ "...")
         5000]
    else
      match result.1 with
      | some t =>
        [GuiMsg.update_transcript t] ++
        (if clipOk then
           [GuiMsg.show_status_message "Transcript copied to clipboard." 3000]
         else
           [GuiMsg.show_status_message
              "Transcript ready (clipboard copy failed)." 4000]) ++
        [GuiMsg.update_status STATUS_IDLE "white"]
      | none =>
        [GuiMsg.update_transcript "Transcription failed: Unknown error.",
         GuiMsg.update_status (STATUS_ERROR ++ ": Unknown") "red",
         GuiMsg.show_status_message "Transcription failed (unknown)." 5000]
  ({ a with current_state := AppState.IDLE },
   evs ++ [GuiMsg.set_button_states true false])

/-- `TranscriptionApp.toggle_recording_state` (`main.py` lines 191-199). -/
def App.toggle_recording_state (a : App) (openOk : Bool) (newName : String)
    (now : Nat) (fs : List String) :
    App × List String × List GuiMsg × List Spawn :=
  match a.current_state with
  | AppState.IDLE =>
    let s := a.start_recording openOk newName now
    (s.1, fs, s.2.1, s.2.2)
  | AppState.RECORDING => a.stop_recording_and_process fs
  | AppState.PROCESSING =>
    (a, fs, [GuiMsg.show_status_message "Processing... please wait." 2000],
     [])

/-- One iteration of `_audio_capture_loop` (`main.py` lines 82-89): if
the capture flag is down the loop exits; if the state is RECORDING and
the recorder is recording, one chunk is read (`read`) and the loop
continues; otherwise the loop breaks. The `Bool` result is `true` when
the loop goes on to the next iteration. -/
def App.capture_iteration (a : App) (fs : List String) (read : Option Nat) :
    App × List String × Bool :=
  if a.audio_capture_active then
    if a.current_state = AppState.RECORDING && a.recorder.is_recording then
      let s := a.recorder.record_audio_chunk fs read
      ({ a with recorder := s.1 }, s.2, true)
    else (a, fs, false)
  else (a, fs, false)

/-- `_audio_capture_loop` (`main.py` lines 79-93) run over a finite
schedule of chunk reads: the loop consumes reads until an iteration
decides to exit (or the schedule ends). -/
def App.capture_loop (a : App) (fs : List String) :
    List (Option Nat) → App × List String
  | [] => (a, fs)
  | read :: rest =>
    let s := a.capture_iteration fs read
    if s.2.2 then s.1.capture_loop s.2.1 rest else (s.1, s.2.1)

/-- A request served by the controller: a hotkey/UI toggle, a direct
start or stop, the delivery of a transcription outcome (the tail of
`_transcribe_and_update` running on its worker thread), or one capture
iteration. Oracle inputs ride along with each request. -/
inductive Request where
  | toggle (openOk : Bool) (newName : String) (now : Nat)
  | start (openOk : Bool) (newName : String) (now : Nat)
  | stop
  | outcome (result : Option String × Option String) (clipOk : Bool)
  | chunk (read : Option Nat)

/-- Serve one request (dispatch to the embedded `main.py` handlers). -/
def App.step (a : App) (fs : List String) :
    Request → App × List String × List GuiMsg × List Spawn
  | Request.toggle ok n t => a.toggle_recording_state ok n t fs
  | Request.start ok n t =>
    let s := a.start_recording ok n t
    (s.1, fs, s.2.1, s.2.2)
  | Request.stop => a.stop_recording_and_process fs
  | Request.outcome r clip =>
    let s := a.transcribe_and_update r clip
    (s.1, fs, s.2, [])
  | Request.chunk read =>
    let s := a.capture_iteration fs read
    (s.1, s.2.1, [], [])

/-- Serve a list of requests, accumulating every thread spawn. -/
def App.run (a : App) (fs : List String) :
    List Request → App × List String × List Spawn
  | [] => (a, fs, [])
  | r :: rs =>
    let s := a.step fs r
    let t := s.1.run s.2.1 rs
    (t.1, t.2.1, s.2.2.2 ++ t.2.2)

/-- `true` when serving the requests never brings the controller back to
IDLE (the whole trace stays inside one session). -/
def App.stays_busy (a : App) (fs : List String) : List Request → Bool
  | [] => true
  | r :: rs =>
    let s := a.step fs r
    !(s.1.current_state = AppState.IDLE) && s.1.stays_busy s.2.1 rs

/-- Number of timer-thread and capture-loop spawns in a spawn list. -/
def tcSpawns (l : List Spawn) : Nat :=
  (l.filter fun s =>
    match s with
    | Spawn.timer => true
    | Spawn.capture => true
    | Spawn.transcription _ => false).length

/-- Number of transcript updates carrying exactly the text `t`
(the embedding of "a TranscriptReady event carrying that text"). -/
def countTranscriptReady (evs : List GuiMsg) (t : String) : Nat :=
  (evs.filter fun e =>
    match e with
    | GuiMsg.update_transcript s => decide (s = t)
    | _ => false).length

/-- The transcript currently shown: payload of the last
`update_transcript` message, if any. -/
def lastTranscript (evs : List GuiMsg) : Option String :=
  evs.foldl
    (fun acc e =>
      match e with
      | GuiMsg.update_transcript t => some t
      | _ => acc)
    none

/-! ### Concrete demonstration scenario

One full session driven from the initial state: a successful device open
at time 1000 ms with generated filename `rec_001.wav`, one captured
chunk, a stop, and a transcription outcome. -/

/-- `start_recording` from the initial state, device open succeeding. -/
def demoStart : App × List GuiMsg × List Spawn :=
  initialApp.start_recording true "rec_001.wav" 1000

/-- The capture loop reads one chunk on an empty filesystem. -/
def demoChunk : App × List String :=
  demoStart.1.capture_loop [] [some 7]

/-- `stop_recording_and_process` after the one chunk. -/
def demoStop : App × List String × List GuiMsg × List Spawn :=
  demoChunk.1.stop_recording_and_process demoChunk.2

/-- Delivery of the transcription outcome for the demonstration session. -/
def demoFinal (result : Option String × Option String) (clipOk : Bool) :
    App × List GuiMsg :=
  demoStop.1.transcribe_and_update result clipOk

/-- All GUI messages of the full demonstration cycle, in publish order. -/
def demoEvents (result : Option String × Option String) (clipOk : Bool) :
    List GuiMsg :=
  demoStart.2.1 ++ demoStop.2.2.1 ++ (demoFinal result clipOk).2

/-- `stop_recording_and_process` issued right after `demoStart`, with no
intervening chunk (so the recorder holds no frames). -/
def quickStop : App × List String × List GuiMsg × List Spawn :=
  demoStart.1.stop_recording_and_process []

/-! ### Helper lemmas -/

theorem toggle_processing_noop (a : App) (fs : List String) (ok : Bool)
    (n : String) (t : Nat) (h : a.current_state = AppState.PROCESSING) :
    a.toggle_recording_state ok n t fs =
      (a, fs, [GuiMsg.show_status_message "Processing... please wait." 2000],
       []) := by
  simp [App.toggle_recording_state, h]

theorem start_noop_of_not_idle (a : App) (ok : Bool) (n : String) (t : Nat)
    (h : a.current_state ≠ AppState.IDLE) :
    a.start_recording ok n t = (a, [], []) := by
  simp [App.start_recording, h]

theorem stop_noop_of_not_recording (a : App) (fs : List String)
    (h : a.current_state ≠ AppState.RECORDING) :
    a.stop_recording_and_process fs = (a, fs, [], []) := by
  simp [App.stop_recording_and_process, h]

theorem tcSpawns_append (l1 l2 : List Spawn) :
    tcSpawns (l1 ++ l2) = tcSpawns l1 + tcSpawns l2 := by
  simp [tcSpawns, List.filter_append]

theorem tcSpawns_stop (a : App) (fs : List String) :
    tcSpawns (a.stop_recording_and_process fs).2.2.2 = 0 := by
  unfold App.stop_recording_and_process
  split
  · dsimp only
    split
    · split <;> simp [tcSpawns]
    · simp [tcSpawns]
  · simp [tcSpawns]

theorem tcSpawns_step_of_busy (a : App) (fs : List String) (r : Request)
    (h : a.current_state ≠ AppState.IDLE) :
    tcSpawns (a.step fs r).2.2.2 = 0 := by
  cases r with
  | toggle ok n t =>
    rcases hs : a.current_state with _ | _ | _
    · exact absurd hs h
    · simp only [App.step, App.toggle_recording_state, hs]
      exact tcSpawns_stop _ _
    · simp [App.step, App.toggle_recording_state, hs, tcSpawns]
  | start ok n t =>
    simp [App.step, start_noop_of_not_idle a ok n t h, tcSpawns]
  | stop => exact tcSpawns_stop _ _
  | outcome res clip => simp [App.step, tcSpawns]
  | chunk read => simp [App.step, tcSpawns]

theorem tcSpawns_run_of_busy (rs : List Request) (a : App)
    (fs : List String) (h : a.current_state ≠ AppState.IDLE)
    (hbusy : a.stays_busy fs rs = true) :
    tcSpawns (a.run fs rs).2.2 = 0 := by
  induction rs generalizing a fs with
  | nil => simp [App.run, tcSpawns]
  | cons r rest ih =>
    simp only [App.stays_busy, Bool.and_eq_true, Bool.not_eq_true',
      decide_eq_false_iff_not] at hbusy
    simp only [App.run, tcSpawns_append]
    rw [tcSpawns_step_of_busy a fs r h, ih _ _ hbusy.1 hbusy.2]

/-! ### Claims -/

/-- C1: the claim says a transcription outcome tagged with a stale session
is dropped, leaving the current session's controller state and transcript
unchanged. The code carries no session tag at all: delivering an outcome of
an abandoned session A while the controller is Recording for session B
makes `_transcribe_and_update` publish A's transcript and force the state
to IDLE, clobbering B. This theorem evaluates the embedded handler at that
failing input: B is Recording, yet after delivery the state is IDLE and
A's stale transcript was published. -/
theorem C1_stale_outcome_clobbers_current_session :
    demoStart.1.current_state = AppState.RECORDING ∧
    (demoStart.1.transcribe_and_update
        (some "stale transcript from session A", none) true).1.current_state
      = AppState.IDLE ∧
    GuiMsg.update_transcript "stale transcript from session A" ∈
      (demoStart.1.transcribe_and_update
        (some "stale transcript from session A", none) true).2 := by
  decide

/-- C2 counterexample: after a chunk-read failure (`read = none`) in a
session that is Recording, the recorder has processed the IOError (it
stopped itself), yet the controller's state is still RECORDING — the
controller does not transition out of Recording, contrary to the claim. -/
theorem C2_read_error_leaves_state_recording :
    (demoStart.1.capture_iteration [] none).1.recorder.is_recording
      = false ∧
    (demoStart.1.capture_iteration [] none).1.current_state
      = AppState.RECORDING := by
  decide

/-- C2 as amended: a chunk-read failure while Recording stops the recorder
and terminates the capture loop (the iteration that hit the error completes
and the very next loop check exits), but the controller remains in the
Recording state; it leaves Recording only on the next explicit stop
request, whose missing-file check then returns the controller to Idle. -/
theorem C2_read_error_stops_recorder_not_controller (a : App)
    (fs : List String) (read2 : Option Nat) (rest : List (Option Nat))
    (h1 : a.current_state = AppState.RECORDING)
    (h2 : a.audio_capture_active = true)
    (h3 : a.recorder.is_recording = true)
    (h4 : a.recorder.stream = true) :
    (a.capture_iteration fs none).1.recorder.is_recording = false ∧
    (a.capture_iteration fs none).1.current_state = AppState.RECORDING ∧
    (a.capture_iteration fs none).2.2 = true ∧
    (a.capture_iteration fs none).1.capture_loop
        (a.capture_iteration fs none).2.1 (read2 :: rest) =
      ((a.capture_iteration fs none).1,
       (a.capture_iteration fs none).2.1) ∧
    ((a.capture_iteration fs none).1.stop_recording_and_process
        (a.capture_iteration fs none).2.1).1.current_state =
      AppState.IDLE := by
  have hit : a.capture_iteration fs none =
      ({ a with recorder :=
          { a.recorder with is_recording := false, stream := false } },
       ({ a.recorder with is_recording := false, stream := false} :
          AudioRecorder).save_recording fs, true) := by
    simp [App.capture_iteration, AudioRecorder.record_audio_chunk,
      AudioRecorder.stop_recording, h1, h2, h3, h4]
  rw [hit]
  refine ⟨rfl, h1, rfl, ?_, ?_⟩
  · simp [App.capture_loop, App.capture_iteration, h1]
  · simp [App.stop_recording_and_process, AudioRecorder.stop_recording, h1]

/-- C2 witness: the amended theorem applied to the concrete Recording
state of the demonstration session. -/
theorem C2_witness :
    (demoStart.1.capture_iteration [] none).1.capture_loop
        (demoStart.1.capture_iteration [] none).2.1 [some 3] =
      ((demoStart.1.capture_iteration [] none).1,
       (demoStart.1.capture_iteration [] none).2.1) :=
  (C2_read_error_stops_recorder_not_controller demoStart.1 [] (some 3) []
    (by decide) (by decide) (by decide) (by decide)).2.2.2.1

/-- C3 counterexample: a full successful cycle returns the controller to
Idle with `recording_start_time` still holding the session's start
timestamp and `recording_filepath` still holding the saved path — neither
is cleared on return to Idle, contrary to the claim. -/
theorem C3_return_to_idle_keeps_session_fields :
    (demoFinal (some "hi", none) true).1.current_state = AppState.IDLE ∧
    (demoFinal (some "hi", none) true).1.recording_start_time
      = some 1000 ∧
    (demoFinal (some "hi", none) true).1.recording_filepath
      = some "rec_001.wav" := by
  decide

/-- C3 as amended: returning to Idle does not clear the Session fields —
`recording_start_time` and `recording_filepath` retain their last values
(they are only overwritten by the next cycle); the transcript display is
cleared at the start of the next session, and a device-open failure on a
fresh controller leaves the app exactly in its initial state. -/
theorem C3_session_reset_only_at_next_start (a : App) (ok : Bool)
    (n : String) (t : Nat) (h : a.current_state = AppState.IDLE) :
    (initialApp.start_recording false n t).1 = initialApp ∧
    (a.start_recording ok n t).2.1.head? =
      some (GuiMsg.update_transcript "") ∧
    (demoFinal (some "hi", none) true).1.recording_start_time
      = some 1000 := by
  refine ⟨?_, ?_, by decide⟩
  · simp [App.start_recording, initialApp, App.start_recording_begin,
      App.start_recording_open, AudioRecorder.start_recording,
      AudioRecorder.init]
  · simp [App.start_recording, h, App.start_recording_begin]

/-- C3 witness: the amended theorem applied at the initial state. -/
theorem C3_witness :
    (initialApp.start_recording false "rec_001.wav" 0).1 = initialApp :=
  (C3_session_reset_only_at_next_start initialApp true "rec_001.wav" 0
    rfl).1

/-- C4 counterexample: `stop_recording` called during a session in which
no chunk was captured returns `some "rec_001.wav"` — the generated file
path, not `None` — while writing nothing to disk. -/
theorem C4_stop_without_chunks_returns_path :
    (demoStart.1.recorder.stop_recording []).2.2 = some "rec_001.wav" ∧
    (demoStart.1.recorder.stop_recording []).2.1 = [] := by
  decide

/-- C4 as amended: during a session (recorder recording) that captured no
chunk, `stop_recording` returns the session's generated file path rather
than `None`; no file is written (the filesystem is unchanged) and the
recorder stops — the save failure is signalled downstream by the missing
file, not by a `None` return. -/
theorem C4_stop_empty_session_path_no_file (r : AudioRecorder)
    (fs : List String) (f : String)
    (h1 : r.is_recording = true) (h2 : r.frames = [])
    (h3 : r.filename = some f) :
    (r.stop_recording fs).2.2 = some f ∧
    (r.stop_recording fs).2.1 = fs ∧
    (r.stop_recording fs).1.is_recording = false := by
  refine ⟨?_, ?_, ?_⟩ <;>
    simp [AudioRecorder.stop_recording, AudioRecorder.save_recording,
      h1, h2, h3]

/-- C4 witness: the amended theorem applied to the recorder right after
the demonstration session started. -/
theorem C4_witness :
    (demoStart.1.recorder.stop_recording []).2.2 = some "rec_001.wav" :=
  (C4_stop_empty_session_path_no_file demoStart.1.recorder []
    "rec_001.wav" (by decide) (by decide) (by decide)).1

/-- C5: with the transcription client returning `("hello world", None)`,
one full start→stop cycle ends in Idle with the displayed transcript equal
to `"hello world"` and exactly one transcript-ready message carrying that
text, whatever the clipboard outcome. -/
theorem C5_round_trip_hello_world (clipOk : Bool) :
    (demoFinal (some "hello world", none) clipOk).1.current_state
      = AppState.IDLE ∧
    lastTranscript (demoEvents (some "hello world", none) clipOk)
      = some "hello world" ∧
    countTranscriptReady (demoEvents (some "hello world", none) clipOk)
      "hello world" = 1 := by
  cases clipOk <;> decide

/-- C5 witness: the round-trip theorem at a successful clipboard copy. -/
theorem C5_witness :
    (demoFinal (some "hello world", none) true).1.current_state
      = AppState.IDLE :=
  (C5_round_trip_hello_world true).1

/-- C6: invalid transitions are silent no-ops — `toggle()` in Processing
leaves the state (and everything else) unchanged and emits exactly one
"Processing... please wait." notice per call; `start()` outside Idle and
`stop()` outside Recording change nothing and emit nothing; none of them
raises an error (all are total functions returning the unchanged state). -/
theorem C6_invalid_transitions_are_noops (a b c : App)
    (fs gs : List String) (ok : Bool) (n : String) (t : Nat)
    (ha : a.current_state = AppState.PROCESSING)
    (hb : b.current_state ≠ AppState.IDLE)
    (hc : c.current_state ≠ AppState.RECORDING) :
    a.toggle_recording_state ok n t fs =
      (a, fs,
       [GuiMsg.show_status_message "Processing... please wait." 2000],
       []) ∧
    b.start_recording ok n t = (b, [], []) ∧
    c.stop_recording_and_process gs = (c, gs, [], []) :=
  ⟨toggle_processing_noop a fs ok n t ha,
   start_noop_of_not_idle b ok n t hb,
   stop_noop_of_not_recording c gs hc⟩

/-- C6 witness: the no-op theorem at a concrete Processing state. -/
theorem C6_witness :
    ({ initialApp with current_state := AppState.PROCESSING } :
        App).toggle_recording_state true "rec.wav" 0 [] =
      ({ initialApp with current_state := AppState.PROCESSING }, [],
       [GuiMsg.show_status_message "Processing... please wait." 2000],
       []) :=
  (C6_invalid_transitions_are_noops
    { initialApp with current_state := AppState.PROCESSING }
    { initialApp with current_state := AppState.PROCESSING }
    { initialApp with current_state := AppState.PROCESSING }
    [] [] true "rec.wav" 0 rfl (by decide) (by decide)).1

/-- C7: `start()` immediately followed by `stop()` with no chunk captured
still publishes the Transcribing status, ends with the save-failure error
notice, and leaves the controller in Idle (never stuck in Processing). -/
theorem C7_immediate_stop_reaches_idle :
    GuiMsg.update_status STATUS_TRANSCRIBING "yellow" ∈ quickStop.2.2.1 ∧
    GuiMsg.show_status_message "Error saving/finding recording file." 5000
      ∈ quickStop.2.2.1 ∧
    quickStop.1.current_state = AppState.IDLE := by
  decide

/-- C8: every timer tick emitted while Recording carries
`HH:MM:SS`-formatted elapsed time recomputed as `now - startedAt`
(so the output depends only on the current time and the start time, never
on previous ticks), and the spec's scenario holds: ticks requested at
`T0+1s` and `T0+3.5s` render `00:00:01` and `00:00:03`. -/
theorem C8_timer_tick_recomputes_elapsed (a : App) (t0 : Nat)
    (h1 : a.current_state = AppState.RECORDING)
    (h2 : a.recording_start_time = some t0) :
    (∀ now, a.timer_tick now =
      some (GuiMsg.update_timer (timer_str ((now - t0) / 1000)))) ∧
    a.timer_tick (t0 + 1000) = some (GuiMsg.update_timer "00:00:01") ∧
    a.timer_tick (t0 + 3500) = some (GuiMsg.update_timer "00:00:03") := by
  have key : ∀ now, a.timer_tick now =
      some (GuiMsg.update_timer (timer_str ((now - t0) / 1000))) := by
    intro now
    simp [App.timer_tick, h1, h2]
  have e1 : t0 + 1000 - t0 = 1000 := by omega
  have e2 : t0 + 3500 - t0 = 3500 := by omega
  refine ⟨key, ?_, ?_⟩
  · rw [key (t0 + 1000), e1]
    decide
  · rw [key (t0 + 3500), e2]
    decide

/-- C8 witness: the timer theorem at the demonstration session, whose
start time is 1000 ms, ticked at 2000 ms. -/
theorem C8_witness :
    demoStart.1.timer_tick 2000 = some (GuiMsg.update_timer "00:00:01") :=
  (C8_timer_tick_recomputes_elapsed demoStart.1 1000 (by decide)
    (by decide)).2.1

/-- C9: a `(None, None)` transcription result is handled as an unknown
failure: the controller publishes the unknown-error transcript, status and
notice, returns to Idle, and neither crashes (the handler is total) nor
silently drops the result. -/
theorem C9_none_none_unknown_failure (a : App) (clipOk : Bool) :
    (a.transcribe_and_update (none, none) clipOk).1.current_state =
      AppState.IDLE ∧
    (a.transcribe_and_update (none, none) clipOk).2 =
      [GuiMsg.update_transcript "Transcription failed: Unknown error.",
       GuiMsg.update_status (STATUS_ERROR ++ ": Unknown") "red",
       GuiMsg.show_status_message "Transcription failed (unknown)." 5000,
       GuiMsg.set_button_states true false] := by
  constructor <;> simp [App.transcribe_and_update, truthy]

/-- C9 witness: the unknown-failure theorem at the demonstration
session's Processing state. -/
theorem C9_witness :
    (demoStop.1.transcribe_and_update (none, none) true).1.current_state
      = AppState.IDLE :=
  (C9_none_none_unknown_failure demoStop.1 true).1

/-- C10: `start()` sets the state to PROCESSING before the device-open
attempt; any `toggle()` or `start()` arriving in that window is a no-op
(the toggle emitting only the busy notice); the state becomes RECORDING
exactly on a successful open — spawning one timer thread and one capture
loop — and reverts to IDLE on a failed open spawning nothing; and as long
as the controller has not returned to IDLE, serving any further requests
spawns no additional timer or capture threads, so at most one of each is
spawned per session. -/
theorem C10_start_window_and_single_spawn (a b : App) (gs : List String)
    (ok : Bool) (n : String) (t : Nat) (rs : List Request)
    (ha : a.current_state = AppState.IDLE)
    (har : a.recorder.is_recording = false)
    (hb : b.current_state ≠ AppState.IDLE)
    (hbusy : b.stays_busy gs rs = true) :
    a.start_recording_begin.1.current_state = AppState.PROCESSING ∧
    (∀ c : App, ∀ fsc : List String,
      c.current_state = AppState.PROCESSING →
      c.toggle_recording_state ok n t fsc =
        (c, fsc,
         [GuiMsg.show_status_message "Processing... please wait." 2000],
         []) ∧
      c.start_recording ok n t = (c, [], [])) ∧
    (a.start_recording true n t).1.current_state = AppState.RECORDING ∧
    (a.start_recording true n t).2.2 = [Spawn.timer, Spawn.capture] ∧
    (a.start_recording false n t).1.current_state = AppState.IDLE ∧
    (a.start_recording false n t).2.2 = [] ∧
    tcSpawns (b.run gs rs).2.2 = 0 := by
  refine ⟨rfl, ?_, ?_, ?_, ?_, ?_, tcSpawns_run_of_busy rs b gs hb hbusy⟩
  · intro c fsc hcp
    refine ⟨toggle_processing_noop c fsc ok n t hcp, ?_⟩
    apply start_noop_of_not_idle
    rw [hcp]
    intro hcontra
    exact absurd hcontra (by decide)
  · simp [App.start_recording, ha, App.start_recording_begin,
      App.start_recording_open, AudioRecorder.start_recording, har]
  · simp [App.start_recording, ha, App.start_recording_begin,
      App.start_recording_open, AudioRecorder.start_recording, har]
  · simp [App.start_recording, ha, App.start_recording_begin,
      App.start_recording_open, AudioRecorder.start_recording, har]
  · simp [App.start_recording, ha, App.start_recording_begin,
      App.start_recording_open, AudioRecorder.start_recording, har]

/-- C10 witness: the theorem applied with the initial state for the
start-window facts and a concrete Processing state serving one further
toggle for the no-extra-spawn bound. -/
theorem C10_witness :
    tcSpawns (({ initialApp with current_state := AppState.PROCESSING } :
      App).run [] [Request.toggle true "rec.wav" 7]).2.2 = 0 :=
  (C10_start_window_and_single_spawn initialApp
    { initialApp with current_state := AppState.PROCESSING }
    [] true "rec.wav" 7 [Request.toggle true "rec.wav" 7]
    rfl rfl (by decide) (by decide)).2.2.2.2.2.2
